import Mathlib

/-!
# Daisyworld: a verified shallow embedding

This file embeds the Daisyworld simulation engine (class `World` and its
nested `struct GroundCover` in `src/World.h`) into Lean 4 and proves the
behavioural properties stated about it.

Modelling conventions:

* C++ `float` arithmetic is modelled by exact rational arithmetic (`ℚ`).
  The decimal literals of the source are carried over as exact rationals.
* The only transcendental operation of the source, `std::pow(x, 0.25)`
  inside the Stefan-Boltzmann inversion, is modelled by an abstract
  parameter `qpow4 : ℚ → ℚ`; every theorem below holds for an arbitrary
  choice of `qpow4`, so nothing depends on the numerics of the fourth root.
* The fixed C++ array `GroundCover groundAtLatitudes[90]` is modelled as a
  total function `Fin 90 → GroundCover`; in-place mutation of one cell
  becomes `Function.update`.
* The float `NaN` sentinel returned by the average-latitude statistics is
  modelled as `Option.none`.
* The base-class call `emp::World<float>::Update()` (external Empirical
  library, not part of this repository) advances the inherited `update`
  counter by one; that is the only effect of the call that the engine
  observes, and it is modelled directly.
-/

namespace Daisyworld

/-- The three kinds of daisies distinguished by the engine. -/
inductive Color : Type
  | white
  | black
  | gray
deriving DecidableEq, Repr

/-- `struct GroundCover` of `src/World.h`: the proportion of ground covered
by each kind of daisy in one region. -/
structure GroundCover : Type where
  proportionWhite : ℚ
  proportionBlack : ℚ
  proportionGray : ℚ
deriving DecidableEq, Repr

/-- The default `GroundCover` constructor arguments of the source
(`0.33, 0.33, 0.0`), used to value-initialize the latitude array. -/
def defaultGroundCover : GroundCover := ⟨33/100, 33/100, 0⟩

/-- Albedo of white daisies (`whiteAlbedo = 0.75`). -/
def whiteAlbedo : ℚ := 3/4

/-- Albedo of black daisies (`blackAlbedo = 0.25`). -/
def blackAlbedo : ℚ := 1/4

/-- Albedo of gray daisies (`grayAlbedo = 0.5`). -/
def grayAlbedo : ℚ := 1/2

/-- Albedo of bare ground (`groundAlbedo = 0.5`). -/
def groundAlbedo : ℚ := 1/2

/-- Stefan constant of the source (`0.0000567`). -/
def stefansConstant : ℚ := 567/10000000

/-- Base solar flux of the source (`917000`). -/
def fluxConstant : ℚ := 917000

/-- Celsius-to-Kelvin offset of the source (`273`). -/
def celsiusToKelvin : ℚ := 273

/-- Conductivity constant of the source (`20`). -/
def conductivityConstant : ℚ := 20

/-- Death rate of daisies per unit time (`0.3`). -/
def deathRate : ℚ := 3/10

/-- Time advanced by each `Update` call (`0.01`). -/
def timePerUpdate : ℚ := 1/100

/-- Number of internal latitude bands of a round planet (`90`). -/
def numberOfLatitudes : ℕ := 90

/-- Number of latitude bands shown on the display (`10`). -/
def numberOfDisplayedLatitudes : ℕ := 10

/-- Lowest per-band luminosity multiplier, at the pole (`0.6`). -/
def minLuminosityMultiplier : ℚ := 3/5

/-- Highest per-band luminosity multiplier, at the equator (`1.5`). -/
def maxLuminosityMultiplier : ℚ := 3/2

namespace GroundCover

/-- `GroundCover::GetProportionGround`: the proportion of the region not
covered by daisies. -/
def GetProportionGround (gc : GroundCover) : ℚ :=
  1 - gc.proportionWhite - gc.proportionBlack - gc.proportionGray

/-- The extinction floor of the increment operations: a proportion that
would fall below `0.001` is snapped to exactly `0`. -/
def snapLow (p : ℚ) : ℚ :=
  if p < 1/1000 then 0 else p

/-- `GroundCover::IncrementWhiteAmount`: add `delta` to the white
proportion, snapping results below `0.001` to `0`. -/
def IncrementWhiteAmount (gc : GroundCover) (delta : ℚ) : GroundCover :=
  { gc with proportionWhite := snapLow (gc.proportionWhite + delta) }

/-- `GroundCover::IncrementBlackAmount`: add `delta` to the black
proportion, snapping results below `0.001` to `0`. -/
def IncrementBlackAmount (gc : GroundCover) (delta : ℚ) : GroundCover :=
  { gc with proportionBlack := snapLow (gc.proportionBlack + delta) }

/-- `GroundCover::IncrementGrayAmount`: add `delta` to the gray
proportion, snapping results below `0.001` to `0`. -/
def IncrementGrayAmount (gc : GroundCover) (delta : ℚ) : GroundCover :=
  { gc with proportionGray := snapLow (gc.proportionGray + delta) }

/-- `GroundCover::GetTotalAlbedo`: the cover-weighted mean of the albedos
present in the region. -/
def GetTotalAlbedo (gc : GroundCover) : ℚ :=
  gc.proportionWhite * whiteAlbedo + gc.proportionBlack * blackAlbedo
    + gc.GetProportionGround * groundAlbedo + gc.proportionGray * grayAlbedo

/-- The stored proportion of a given color. -/
def proportionOf (c : Color) (gc : GroundCover) : ℚ :=
  match c with
  | Color.white => gc.proportionWhite
  | Color.black => gc.proportionBlack
  | Color.gray => gc.proportionGray

/-- The per-color increment operation of the source, dispatched on the
color (`IncrementWhiteAmount` / `IncrementBlackAmount` /
`IncrementGrayAmount`). -/
def IncrementColor (c : Color) (gc : GroundCover) (delta : ℚ) : GroundCover :=
  match c with
  | Color.white => gc.IncrementWhiteAmount delta
  | Color.black => gc.IncrementBlackAmount delta
  | Color.gray => gc.IncrementGrayAmount delta

end GroundCover

/-- The state of `class World` in `src/World.h`: the flat cover, the
topology flag, the solar luminosity, the per-color enable flags, the
growth switch, the 90 latitude bands and the inherited update counter. -/
structure World : Type where
  ground : GroundCover
  roundWorld : Bool
  solarLuminosity : ℚ
  blackDaisiesEnabled : Bool
  whiteDaisiesEnabled : Bool
  grayDaisiesEnabled : Bool
  daisiesCanGrowAndDie : Bool
  groundAtLatitudes : Fin numberOfLatitudes → GroundCover
  update : ℕ

namespace World

/-- The `World` constructor: initial proportions and luminosity, all
latitude bands value-initialized to the default cover, white and black
enabled, gray disabled, growth enabled, counter zero. -/
def init (pWhite pBlack sLum pGray : ℚ) (round : Bool) : World :=
  { ground := ⟨pWhite, pBlack, pGray⟩
    roundWorld := round
    solarLuminosity := sLum
    blackDaisiesEnabled := true
    whiteDaisiesEnabled := true
    grayDaisiesEnabled := false
    daisiesCanGrowAndDie := true
    groundAtLatitudes := fun _ => defaultGroundCover
    update := 0 }

/-- Total access to the latitude array at an integer index; indices the
source never produces fall back to the default cover. -/
def bandAt (w : World) (i : ℕ) : GroundCover :=
  if h : i < numberOfLatitudes then w.groundAtLatitudes ⟨i, h⟩
  else defaultGroundCover

/-- `World::SetRoundWorld`: assign the topology flag. -/
def SetRoundWorld (w : World) (_roundworld : Bool) : World :=
  { w with roundWorld := _roundworld }

/-- `World::SetSolarLuminosity`. -/
def SetSolarLuminosity (w : World) (s : ℚ) : World :=
  { w with solarLuminosity := s }

/-- `World::SetDaisyGrowthAndDeath`: enable or disable growth. -/
def SetDaisyGrowthAndDeath (w : World) (b : Bool) : World :=
  { w with daisiesCanGrowAndDie := b }

/-- `World::GetLuminosityMultiplierAtLatitude`: linear interpolation of
the luminosity multiplier from the pole to the equator. -/
def GetLuminosityMultiplierAtLatitude (latitude : ℕ) : ℚ :=
  minLuminosityMultiplier
    + (maxLuminosityMultiplier - minLuminosityMultiplier)
        / ((numberOfLatitudes : ℚ) - 1) * (latitude : ℚ)

/-- `World::GetAverageAlbedoOnRoundPlanet`: one minus the accumulated
insolation-weighted per-band absorption. -/
def GetAverageAlbedoOnRoundPlanet (w : World) : ℚ :=
  1 - ∑ latitude in Finset.range numberOfLatitudes,
        GetLuminosityMultiplierAtLatitude latitude
          * (1 - (w.bandAt latitude).GetTotalAlbedo) / (numberOfLatitudes : ℚ)

/-- `World::GetTotalAlbedo`: planet-wide albedo, dispatching on the
topology flag. -/
def GetTotalAlbedo (w : World) : ℚ :=
  if w.roundWorld then w.GetAverageAlbedoOnRoundPlanet
  else w.ground.GetTotalAlbedo

/-- `World::GetGlobalTemperature`: Stefan-Boltzmann inversion of the
absorbed flux; the fourth root is the abstract parameter `qpow4`. -/
def GetGlobalTemperature (qpow4 : ℚ → ℚ) (w : World) : ℚ :=
  qpow4 (fluxConstant * w.solarLuminosity * (1 - w.GetTotalAlbedo) / stefansConstant)
    - celsiusToKelvin

/-- `World::GetTemperatureOfAlbedo`: conductive local temperature of a
patch with the given albedo on a flat planet. -/
def GetTemperatureOfAlbedo (qpow4 : ℚ → ℚ) (w : World) (localAlbedo : ℚ) : ℚ :=
  conductivityConstant * (w.GetTotalAlbedo - localAlbedo)
    + w.GetGlobalTemperature qpow4

/-- `World::GetTemperatureOfAlbedoAtLatitude`: conductive local
temperature of a patch at a given latitude, from the pre-update global
temperature and albedo passed in by the caller. -/
def GetTemperatureOfAlbedoAtLatitude (localAlbedo : ℚ) (latitude : ℕ)
    (globalTemperature globalAlbedo : ℚ) : ℚ :=
  conductivityConstant
      * ((1 - localAlbedo) * GetLuminosityMultiplierAtLatitude latitude
          - (1 - globalAlbedo))
    + globalTemperature

/-- `World::GetProportionWhite`: planet-wide white proportion; on a round
world the unweighted mean over the latitude bands. -/
def GetProportionWhite (w : World) : ℚ :=
  if w.roundWorld then
    ∑ latitude in Finset.range numberOfLatitudes,
      (w.bandAt latitude).proportionWhite / (numberOfLatitudes : ℚ)
  else w.ground.proportionWhite

/-- `World::GetProportionBlack`: planet-wide black proportion. -/
def GetProportionBlack (w : World) : ℚ :=
  if w.roundWorld then
    ∑ latitude in Finset.range numberOfLatitudes,
      (w.bandAt latitude).proportionBlack / (numberOfLatitudes : ℚ)
  else w.ground.proportionBlack

/-- `World::GetProportionGray`: planet-wide gray proportion. -/
def GetProportionGray (w : World) : ℚ :=
  if w.roundWorld then
    ∑ latitude in Finset.range numberOfLatitudes,
      (w.bandAt latitude).proportionGray / (numberOfLatitudes : ℚ)
  else w.ground.proportionGray

/-- `World::GetProportionGround`: planet-wide bare-ground proportion. -/
def GetProportionGround (w : World) : ℚ :=
  if w.roundWorld then
    ∑ latitude in Finset.range numberOfLatitudes,
      (w.bandAt latitude).GetProportionGround / (numberOfLatitudes : ℚ)
  else w.ground.GetProportionGround

/-- The planet-wide aggregate proportion of a given color, dispatched on
the color. -/
def GetProportionOfColor (c : Color) (w : World) : ℚ :=
  match c with
  | Color.white => w.GetProportionWhite
  | Color.black => w.GetProportionBlack
  | Color.gray => w.GetProportionGray

/-- `World::SetBlackEnabled`: toggle black daisies, zeroing them
everywhere when disabling. -/
def SetBlackEnabled (w : World) (b : Bool) : World :=
  if b then { w with blackDaisiesEnabled := b }
  else
    { w with blackDaisiesEnabled := b
             ground := { w.ground with proportionBlack := 0 }
             groundAtLatitudes := fun lat =>
               { w.groundAtLatitudes lat with proportionBlack := 0 } }

/-- `World::SetWhiteEnabled`: toggle white daisies, zeroing them
everywhere when disabling. -/
def SetWhiteEnabled (w : World) (b : Bool) : World :=
  if b then { w with whiteDaisiesEnabled := b }
  else
    { w with whiteDaisiesEnabled := b
             ground := { w.ground with proportionWhite := 0 }
             groundAtLatitudes := fun lat =>
               { w.groundAtLatitudes lat with proportionWhite := 0 } }

/-- `World::GrowthRateFunction`: the parabolic growth-suitability curve
`1 - 0.003265 (22.5 - T)^2`. -/
def GrowthRateFunction (localTemperature : ℚ) : ℚ :=
  1 - 3265/1000000 * (45/2 - localTemperature) * (45/2 - localTemperature)

/-- `World::GrowthRateOfColor`: logistic-like growth rate of a color on a
flat planet, from its proportion and local temperature. -/
def GrowthRateOfColor (w : World) (proportionOfColor localTemperature : ℚ) : ℚ :=
  proportionOfColor
    * (GrowthRateFunction localTemperature * w.GetProportionGround - deathRate)

/-- `World::WhiteGrowthRate` on a flat planet. -/
def WhiteGrowthRate (qpow4 : ℚ → ℚ) (w : World) : ℚ :=
  w.GrowthRateOfColor w.GetProportionWhite (w.GetTemperatureOfAlbedo qpow4 whiteAlbedo)

/-- `World::BlackGrowthRate` on a flat planet. -/
def BlackGrowthRate (qpow4 : ℚ → ℚ) (w : World) : ℚ :=
  w.GrowthRateOfColor w.GetProportionBlack (w.GetTemperatureOfAlbedo qpow4 blackAlbedo)

/-- `World::GrayGrowthRate` on a flat planet. -/
def GrayGrowthRate (qpow4 : ℚ → ℚ) (w : World) : ℚ :=
  w.GrowthRateOfColor w.GetProportionGray (w.GetTemperatureOfAlbedo qpow4 grayAlbedo)

/-- `World::GrowthRateOfColorAtLatitude`: growth rate of a color in one
latitude band, using the bare-ground fraction of that band. -/
def GrowthRateOfColorAtLatitude (w : World)
    (proportionOfColor localTemperature : ℚ) (latitude : ℕ) : ℚ :=
  proportionOfColor
    * (GrowthRateFunction localTemperature
         * (w.bandAt latitude).GetProportionGround - deathRate)

/-- `World::WhiteGrowthRateAtLatitude`, from the pre-update global
temperature and albedo passed in by the caller. -/
def WhiteGrowthRateAtLatitude (w : World) (latitude : ℕ)
    (globalTemperature globalAlbedo : ℚ) : ℚ :=
  w.GrowthRateOfColorAtLatitude (w.bandAt latitude).proportionWhite
    (GetTemperatureOfAlbedoAtLatitude whiteAlbedo latitude globalTemperature globalAlbedo)
    latitude

/-- `World::BlackGrowthRateAtLatitude`. -/
def BlackGrowthRateAtLatitude (w : World) (latitude : ℕ)
    (globalTemperature globalAlbedo : ℚ) : ℚ :=
  w.GrowthRateOfColorAtLatitude (w.bandAt latitude).proportionBlack
    (GetTemperatureOfAlbedoAtLatitude blackAlbedo latitude globalTemperature globalAlbedo)
    latitude

/-- `World::GrayGrowthRateAtLatitude`. -/
def GrayGrowthRateAtLatitude (w : World) (latitude : ℕ)
    (globalTemperature globalAlbedo : ℚ) : ℚ :=
  w.GrowthRateOfColorAtLatitude (w.bandAt latitude).proportionGray
    (GetTemperatureOfAlbedoAtLatitude grayAlbedo latitude globalTemperature globalAlbedo)
    latitude

/-- The new value of one latitude band produced by
`World::UpdateDaisyAmountsAtLatitude`: the three growth amounts are
computed first, then the enabled colors are incremented in sequence. -/
def newBand (w : World) (latitude : Fin numberOfLatitudes)
    (globalTemperature globalAlbedo : ℚ) : GroundCover :=
  let whiteGrowthAmount :=
    w.WhiteGrowthRateAtLatitude latitude globalTemperature globalAlbedo * timePerUpdate
  let blackGrowthAmount :=
    w.BlackGrowthRateAtLatitude latitude globalTemperature globalAlbedo * timePerUpdate
  let grayGrowthAmount :=
    w.GrayGrowthRateAtLatitude latitude globalTemperature globalAlbedo * timePerUpdate
  let gc0 := w.groundAtLatitudes latitude
  let gc1 := if w.whiteDaisiesEnabled then gc0.IncrementWhiteAmount whiteGrowthAmount else gc0
  let gc2 := if w.blackDaisiesEnabled then gc1.IncrementBlackAmount blackGrowthAmount else gc1
  if w.grayDaisiesEnabled then gc2.IncrementGrayAmount grayGrowthAmount else gc2

/-- `World::UpdateDaisyAmountsAtLatitude`: in-place mutation of the band
at `latitude`, with all three growth amounts computed before any
increment is applied. -/
def UpdateDaisyAmountsAtLatitude (w : World) (latitude : Fin numberOfLatitudes)
    (globalTemperature globalAlbedo : ℚ) : World :=
  let gc := newBand w latitude globalTemperature globalAlbedo
  { w with groundAtLatitudes := Function.update w.groundAtLatitudes latitude gc }

/-- `World::UpdateDaisyAmountsOnFlatPlanet`: the three growth amounts are
computed first from the current state, then the enabled colors of the
flat cover are incremented in sequence. -/
def UpdateDaisyAmountsOnFlatPlanet (qpow4 : ℚ → ℚ) (w : World) : World :=
  let whiteGrowthAmount := WhiteGrowthRate qpow4 w * timePerUpdate
  let blackGrowthAmount := BlackGrowthRate qpow4 w * timePerUpdate
  let grayGrowthAmount := GrayGrowthRate qpow4 w * timePerUpdate
  let gc1 := if w.whiteDaisiesEnabled then w.ground.IncrementWhiteAmount whiteGrowthAmount else w.ground
  let gc2 := if w.blackDaisiesEnabled then gc1.IncrementBlackAmount blackGrowthAmount else gc1
  let gc3 := if w.grayDaisiesEnabled then gc2.IncrementGrayAmount grayGrowthAmount else gc2
  { w with ground := gc3 }

/-- The band loop of `World::Update`, processing the given list of
latitudes in order against the frozen global temperature and albedo. -/
def RunBandUpdates (order : List (Fin numberOfLatitudes))
    (globalTemperature globalAlbedo : ℚ) (w : World) : World :=
  order.foldl (fun acc lat => UpdateDaisyAmountsAtLatitude acc lat globalTemperature globalAlbedo) w

/-- `World::Update`: advance the inherited update counter (the effect of
`emp::World<float>::Update()`), then, if growth is enabled, either run
the per-latitude band loop against the snapshotted global temperature
and albedo, or update the flat cover. -/
def Update (qpow4 : ℚ → ℚ) (w : World) : World :=
  let w1 : World := { w with update := w.update + 1 }
  if w1.daisiesCanGrowAndDie then
    if w1.roundWorld then
      RunBandUpdates (List.finRange numberOfLatitudes)
        (w1.GetGlobalTemperature qpow4) w1.GetTotalAlbedo w1
    else
      UpdateDaisyAmountsOnFlatPlanet qpow4 w1
  else w1

/-- Truncation toward zero, the C++ conversion applied when a `float`
value is assigned back into an `int` accumulator. -/
def truncToInt (q : ℚ) : ℤ :=
  if 0 ≤ q then ⌊q⌋ else ⌈q⌉

/-- The width of one display band
(`numberOfLatitudes / numberOfDisplayedLatitudes`, integer division). -/
def displayBandWidth : ℕ := numberOfLatitudes / numberOfDisplayedLatitudes

/-- `World::GetProportionWhiteAtLatitude`: the white proportion reported
for one display band. The source accumulates into
`int totalDaisiesInBand`, so every `+=` truncates the running sum toward
zero; the model keeps that conversion. -/
def GetProportionWhiteAtLatitude (w : World) (latitude : ℕ) : ℚ :=
  let total : ℤ :=
    (List.range' (numberOfLatitudes - displayBandWidth * latitude - displayBandWidth)
        displayBandWidth).foldl
      (fun acc internalLatitude =>
        truncToInt ((acc : ℚ)
          + (w.bandAt internalLatitude).proportionWhite / (displayBandWidth : ℚ)))
      0
  (total : ℚ)

/-- `World::GetProportionBlackAtLatitude`, with the same `int`
accumulator as the white variant. -/
def GetProportionBlackAtLatitude (w : World) (latitude : ℕ) : ℚ :=
  let total : ℤ :=
    (List.range' (numberOfLatitudes - displayBandWidth * latitude - displayBandWidth)
        displayBandWidth).foldl
      (fun acc internalLatitude =>
        truncToInt ((acc : ℚ)
          + (w.bandAt internalLatitude).proportionBlack / (displayBandWidth : ℚ)))
      0
  (total : ℚ)

/-- `World::GetProportionGroundAtLatitude`, with the same `int`
accumulator as the white variant. -/
def GetProportionGroundAtLatitude (w : World) (latitude : ℕ) : ℚ :=
  let total : ℤ :=
    (List.range' (numberOfLatitudes - displayBandWidth * latitude - displayBandWidth)
        displayBandWidth).foldl
      (fun acc internalLatitude =>
        truncToInt ((acc : ℚ)
          + (w.bandAt internalLatitude).GetProportionGround / (displayBandWidth : ℚ)))
      0
  (total : ℚ)

/-- `World::GetAverageLatitudeOfWhite`: the proportion-weighted average
band index of white daisies, or the `NaN` sentinel (modelled as `none`)
when the aggregate proportion is below `0.0001`. -/
def GetAverageLatitudeOfWhite (w : World) : Option ℚ :=
  if w.GetProportionWhite < 1/10000 then none
  else
    some ((∑ latitude in Finset.range numberOfLatitudes,
            (latitude : ℚ) * (w.bandAt latitude).proportionWhite)
          / w.GetProportionWhite / (numberOfLatitudes : ℚ))

/-- `World::GetAverageLatitudeOfBlack`. -/
def GetAverageLatitudeOfBlack (w : World) : Option ℚ :=
  if w.GetProportionBlack < 1/10000 then none
  else
    some ((∑ latitude in Finset.range numberOfLatitudes,
            (latitude : ℚ) * (w.bandAt latitude).proportionBlack)
          / w.GetProportionBlack / (numberOfLatitudes : ℚ))

/-- `World::GetAverageLatitudeOfGray`. -/
def GetAverageLatitudeOfGray (w : World) : Option ℚ :=
  if w.GetProportionGray < 1/10000 then none
  else
    some ((∑ latitude in Finset.range numberOfLatitudes,
            (latitude : ℚ) * (w.bandAt latitude).proportionGray)
          / w.GetProportionGray / (numberOfLatitudes : ℚ))

/-- The average-latitude statistic of a given color, dispatched on the
color. -/
def GetAverageLatitudeOfColor (c : Color) (w : World) : Option ℚ :=
  match c with
  | Color.white => w.GetAverageLatitudeOfWhite
  | Color.black => w.GetAverageLatitudeOfBlack
  | Color.gray => w.GetAverageLatitudeOfGray

/-- `World::GetMaxLatitudeOfWhite`: the highest band index holding white
daisies, or `-1` when there are none. -/
def GetMaxLatitudeOfWhite (w : World) : ℤ :=
  match (List.range numberOfLatitudes).reverse.find?
      (fun latitude => decide (0 < (w.bandAt latitude).proportionWhite)) with
  | some latitude => (latitude : ℤ)
  | none => -1

/-- `World::GetMinLatitudeOfWhite`: the lowest band index holding white
daisies, or `numberOfLatitudes` when there are none. -/
def GetMinLatitudeOfWhite (w : World) : ℕ :=
  match (List.range numberOfLatitudes).find?
      (fun latitude => decide (0 < (w.bandAt latitude).proportionWhite)) with
  | some latitude => latitude
  | none => numberOfLatitudes

/-- `World::GetUpdatesPerTimeUnit`: `1 / timePerUpdate = 100`. -/
def GetUpdatesPerTimeUnit : ℚ := 1 / timePerUpdate

/-- `World::GetSolarLuminosity`. -/
def GetSolarLuminosity (w : World) : ℚ := w.solarLuminosity

/-- `World::BoostDaisiesIfExtinctOnRoundWorld`: raise every enabled color
below its per-band threshold to exactly that threshold, band by band. -/
def BoostDaisiesIfExtinctOnRoundWorld
    (whiteBoost blackBoost grayBoost : ℚ) (w : World) : World :=
  { w with groundAtLatitudes := fun latitude =>
      let gc0 := w.groundAtLatitudes latitude
      let gc1 := if w.whiteDaisiesEnabled ∧ gc0.proportionWhite < whiteBoost
                 then { gc0 with proportionWhite := whiteBoost } else gc0
      let gc2 := if w.blackDaisiesEnabled ∧ gc1.proportionBlack < blackBoost
                 then { gc1 with proportionBlack := blackBoost } else gc1
      if w.grayDaisiesEnabled ∧ gc2.proportionGray < grayBoost
      then { gc2 with proportionGray := grayBoost } else gc2 }

/-- `World::BoostDaisiesIfExtinct`: on a round world delegate to the
per-band variant with its default thresholds of `0.001`; on a flat world
raise every enabled color whose aggregate proportion is below its
threshold to exactly that threshold. -/
def BoostDaisiesIfExtinct (whiteBoost blackBoost grayBoost : ℚ) (w : World) : World :=
  if w.roundWorld then
    BoostDaisiesIfExtinctOnRoundWorld (1/1000) (1/1000) (1/1000) w
  else
    let w1 := if w.whiteDaisiesEnabled ∧ w.GetProportionWhite < whiteBoost
              then { w with ground := { w.ground with proportionWhite := whiteBoost } } else w
    let w2 := if w1.blackDaisiesEnabled ∧ w1.GetProportionBlack < blackBoost
              then { w1 with ground := { w1.ground with proportionBlack := blackBoost } } else w1
    if w2.grayDaisiesEnabled ∧ w2.GetProportionGray < grayBoost
    then { w2 with ground := { w2.ground with proportionGray := grayBoost } } else w2

end World

/-! ## Specification-side definitions

The definitions below restate update and aggregation behaviour the way
the specification words it; the theorems compare them with the
source-translated definitions above. -/

/-- Application of one color delta to a cover, gated by that color's
enable flag, with the precomputed per-color amounts `dw`, `db`, `dg`. -/
def applyColorDelta (we be ge : Bool) (dw db dg : ℚ)
    (gc : GroundCover) : Color → GroundCover
  | Color.white => if we then gc.IncrementWhiteAmount dw else gc
  | Color.black => if be then gc.IncrementBlackAmount db else gc
  | Color.gray => if ge then gc.IncrementGrayAmount dg else gc

/-- Application of the three precomputed color deltas to a cover in the
given processing order. -/
def applyDeltasInOrder (corder : List Color) (we be ge : Bool)
    (dw db dg : ℚ) (gc : GroundCover) : GroundCover :=
  corder.foldl (fun g c => applyColorDelta we be ge dw db dg g c) gc

/-- Simultaneous application of the three precomputed color deltas: every
field of the result is computed from the original cover. -/
def applyDeltasSim (we be ge : Bool) (dw db dg : ℚ) (gc : GroundCover) : GroundCover :=
  { proportionWhite :=
      if we then GroundCover.snapLow (gc.proportionWhite + dw) else gc.proportionWhite
    proportionBlack :=
      if be then GroundCover.snapLow (gc.proportionBlack + db) else gc.proportionBlack
    proportionGray :=
      if ge then GroundCover.snapLow (gc.proportionGray + dg) else gc.proportionGray }

/-- The simultaneous-update semantics the specification demands of
`World::Update`: every per-color, per-band delta is
`GrowthRate × timePerUpdate` computed from the frozen pre-step state
(pre-step global albedo and temperature, pre-step proportions and
bare-ground fractions), and all deltas are applied at once. -/
def SimultaneousUpdate (qpow4 : ℚ → ℚ) (w : World) : World :=
  if w.daisiesCanGrowAndDie then
    if w.roundWorld then
      let gT := w.GetGlobalTemperature qpow4
      let gA := w.GetTotalAlbedo
      { w with update := w.update + 1
               groundAtLatitudes := fun latitude =>
                 applyDeltasSim w.whiteDaisiesEnabled w.blackDaisiesEnabled w.grayDaisiesEnabled
                   (w.WhiteGrowthRateAtLatitude latitude gT gA * timePerUpdate)
                   (w.BlackGrowthRateAtLatitude latitude gT gA * timePerUpdate)
                   (w.GrayGrowthRateAtLatitude latitude gT gA * timePerUpdate)
                   (w.groundAtLatitudes latitude) }
    else
      { w with update := w.update + 1
               ground :=
                 applyDeltasSim w.whiteDaisiesEnabled w.blackDaisiesEnabled w.grayDaisiesEnabled
                   (World.WhiteGrowthRate qpow4 w * timePerUpdate)
                   (World.BlackGrowthRate qpow4 w * timePerUpdate)
                   (World.GrayGrowthRate qpow4 w * timePerUpdate)
                   w.ground }
  else { w with update := w.update + 1 }

/-- `World::Update` with the round-mode band loop running over an
arbitrary list of latitudes instead of `0, 1, ..., N-1`. -/
def UpdateWithBandOrder (qpow4 : ℚ → ℚ)
    (order : List (Fin numberOfLatitudes)) (w : World) : World :=
  let w1 : World := { w with update := w.update + 1 }
  if w1.daisiesCanGrowAndDie then
    if w1.roundWorld then
      World.RunBandUpdates order (w1.GetGlobalTemperature qpow4) w1.GetTotalAlbedo w1
    else
      World.UpdateDaisyAmountsOnFlatPlanet qpow4 w1
  else w1

/-- The new value of one latitude band when the precomputed per-color
deltas of `World::UpdateDaisyAmountsAtLatitude` are applied in an
arbitrary color order. -/
def newBandWithOrder (corder : List Color) (w : World)
    (latitude : Fin numberOfLatitudes) (globalTemperature globalAlbedo : ℚ) : GroundCover :=
  applyDeltasInOrder corder w.whiteDaisiesEnabled w.blackDaisiesEnabled w.grayDaisiesEnabled
    (w.WhiteGrowthRateAtLatitude latitude globalTemperature globalAlbedo * timePerUpdate)
    (w.BlackGrowthRateAtLatitude latitude globalTemperature globalAlbedo * timePerUpdate)
    (w.GrayGrowthRateAtLatitude latitude globalTemperature globalAlbedo * timePerUpdate)
    (w.groundAtLatitudes latitude)

/-- `World::Update` with the per-cover color increments running in an
arbitrary color order (in both the flat and the round branch). -/
def UpdateWithColorOrder (qpow4 : ℚ → ℚ) (corder : List Color) (w : World) : World :=
  let w1 : World := { w with update := w.update + 1 }
  if w1.daisiesCanGrowAndDie then
    if w1.roundWorld then
      let gT := w1.GetGlobalTemperature qpow4
      let gA := w1.GetTotalAlbedo
      (List.finRange numberOfLatitudes).foldl
        (fun acc lat =>
          let gc := newBandWithOrder corder acc lat gT gA
          { acc with groundAtLatitudes := Function.update acc.groundAtLatitudes lat gc })
        w1
    else
      let gc :=
        applyDeltasInOrder corder w1.whiteDaisiesEnabled w1.blackDaisiesEnabled w1.grayDaisiesEnabled
          (World.WhiteGrowthRate qpow4 w1 * timePerUpdate)
          (World.BlackGrowthRate qpow4 w1 * timePerUpdate)
          (World.GrayGrowthRate qpow4 w1 * timePerUpdate)
          w1.ground
      { w1 with ground := gc }
  else w1

/-- Modelled from the spec wording of claim C2: the insolation-weighted
mean of the per-band albedos, where band `i` carries weight
`InsolationMultiplier(i)/N`. -/
def specAlbedoWeightedMean (w : World) : ℚ :=
  ∑ latitude in Finset.range numberOfLatitudes,
    World.GetLuminosityMultiplierAtLatitude latitude / (numberOfLatitudes : ℚ)
      * (w.bandAt latitude).GetTotalAlbedo

/-- Modelled from the spec wording of claim C5: the unweighted mean of
the white proportions over the internal bands of display band `d`. -/
def specDisplayBandMeanWhite (w : World) (d : ℕ) : ℚ :=
  (∑ latitude in Finset.Ico (numberOfLatitudes - World.displayBandWidth * (d + 1))
      (numberOfLatitudes - World.displayBandWidth * d),
    (w.bandAt latitude).proportionWhite) / (World.displayBandWidth : ℚ)

/-- Modelled from the spec wording of claim C5: the unweighted mean of
the bare-ground proportions over the internal bands of display band `d`. -/
def specDisplayBandMeanGround (w : World) (d : ℕ) : ℚ :=
  (∑ latitude in Finset.Ico (numberOfLatitudes - World.displayBandWidth * (d + 1))
      (numberOfLatitudes - World.displayBandWidth * d),
    (w.bandAt latitude).GetProportionGround) / (World.displayBandWidth : ℚ)

/-! ## State-threaded query forms

Each query method of the source reads fields of `this` and locals only;
its state-threaded form returns the value together with the state the
call leaves behind, which is the state it was given. -/

/-- State-threaded `World::GetTotalAlbedo`. -/
def runGetTotalAlbedo (w : World) : ℚ × World := (w.GetTotalAlbedo, w)

/-- State-threaded `World::GetGlobalTemperature`. -/
def runGetGlobalTemperature (qpow4 : ℚ → ℚ) (w : World) : ℚ × World :=
  (w.GetGlobalTemperature qpow4, w)

/-- State-threaded `World::GetTemperatureOfAlbedo`. -/
def runGetTemperatureOfAlbedo (qpow4 : ℚ → ℚ) (localAlbedo : ℚ) (w : World) : ℚ × World :=
  (w.GetTemperatureOfAlbedo qpow4 localAlbedo, w)

/-- State-threaded per-color aggregate proportion query. -/
def runGetProportionOfColor (c : Color) (w : World) : ℚ × World :=
  (World.GetProportionOfColor c w, w)

/-- State-threaded `World::GetProportionGround`. -/
def runGetProportionGround (w : World) : ℚ × World := (w.GetProportionGround, w)

/-- State-threaded `World::GetProportionWhiteAtLatitude`. -/
def runGetProportionWhiteAtLatitude (latitude : ℕ) (w : World) : ℚ × World :=
  (w.GetProportionWhiteAtLatitude latitude, w)

/-- State-threaded `World::GetMinLatitudeOfWhite`. -/
def runGetMinLatitudeOfWhite (w : World) : ℕ × World := (w.GetMinLatitudeOfWhite, w)

/-- State-threaded `World::GetAverageLatitudeOfWhite`. -/
def runGetAverageLatitudeOfWhite (w : World) : Option ℚ × World :=
  (w.GetAverageLatitudeOfWhite, w)

/-- State-threaded `World::GetMaxLatitudeOfWhite`. -/
def runGetMaxLatitudeOfWhite (w : World) : ℤ × World := (w.GetMaxLatitudeOfWhite, w)

/-- State-threaded `World::GetSolarLuminosity`. -/
def runGetSolarLuminosity (w : World) : ℚ × World := (w.GetSolarLuminosity, w)

/-- State-threaded `World::GetUpdatesPerTimeUnit`. -/
def runGetUpdatesPerTimeUnit (w : World) : ℚ × World := (World.GetUpdatesPerTimeUnit, w)

/-- Replacing the whole latitude array of a world. -/
def World.setBands (w : World) (F : Fin numberOfLatitudes → GroundCover) : World :=
  { w with groundAtLatitudes := F }

/-- Replacing the flat cover of a world. -/
def World.setGround (w : World) (gc : GroundCover) : World :=
  { w with ground := gc }

/-! ## Helper lemmas -/

theorem bandAt_coe (w : World) (lat : Fin numberOfLatitudes) :
    w.bandAt ↑lat = w.groundAtLatitudes lat := by
  simp [World.bandAt]

theorem setBands_setBands (w : World) (F G : Fin numberOfLatitudes → GroundCover) :
    (w.setBands F).setBands G = w.setBands G := rfl

theorem setBands_self (w : World) : w.setBands w.groundAtLatitudes = w := rfl

/-- Folding single-band writes over a duplicate-free list of latitudes is
the same as writing every listed band at once, provided each write only
depends on the value of its own band (plus the fixed fields). -/
theorem foldl_setBands (g : World → Fin numberOfLatitudes → GroundCover)
    (hg : ∀ (w : World) (F : Fin numberOfLatitudes → GroundCover) (lat : Fin numberOfLatitudes),
      F lat = w.groundAtLatitudes lat → g (w.setBands F) lat = g w lat) :
    ∀ (l : List (Fin numberOfLatitudes)), l.Nodup → ∀ w : World,
      l.foldl (fun acc lat =>
          { acc with groundAtLatitudes := Function.update acc.groundAtLatitudes lat (g acc lat) }) w
        = w.setBands (fun i => if i ∈ l then g w i else w.groundAtLatitudes i) := by
  intro l
  induction l with
  | nil =>
    intro _ w
    simp only [List.foldl_nil, List.not_mem_nil, if_false]
    rfl
  | cons a t ih =>
    intro hnd w
    rw [List.nodup_cons] at hnd
    rw [List.foldl_cons, ih hnd.2]
    have hcollapse : ∀ (U : Fin numberOfLatitudes → GroundCover)
        (G : Fin numberOfLatitudes → GroundCover),
        ({ w with groundAtLatitudes := U } : World).setBands G = w.setBands G :=
      fun _ _ => rfl
    rw [hcollapse]
    refine congrArg (fun F => w.setBands F) ?_
    funext i
    by_cases hit : i ∈ t
    · have hia : i ≠ a := fun hcontra => hnd.1 (hcontra ▸ hit)
      have hF : (Function.update w.groundAtLatitudes a (g w a)) i = w.groundAtLatitudes i :=
        Function.update_noteq hia _ _
      rw [if_pos hit, if_pos (List.mem_cons_of_mem a hit)]
      exact hg w _ i hF
    · by_cases hia : i = a
      · subst hia
        rw [if_neg hit, if_pos (List.mem_cons_self i t)]
        exact Function.update_same i _ _
      · rw [if_neg hit, if_neg (by simp [hia, hit])]
        show Function.update w.groundAtLatitudes a (g w a) i = w.groundAtLatitudes i
        exact Function.update_noteq hia _ _

theorem newBand_congr (w : World) (F : Fin numberOfLatitudes → GroundCover)
    (lat : Fin numberOfLatitudes) (gT gA : ℚ)
    (h : F lat = w.groundAtLatitudes lat) :
    (w.setBands F).newBand lat gT gA = w.newBand lat gT gA := by
  simp only [World.newBand, World.WhiteGrowthRateAtLatitude, World.BlackGrowthRateAtLatitude,
    World.GrayGrowthRateAtLatitude, World.GrowthRateOfColorAtLatitude, World.setBands,
    bandAt_coe]
  rw [h]

theorem RunBandUpdates_closed (gT gA : ℚ) (l : List (Fin numberOfLatitudes))
    (hl : l.Nodup) (w : World) :
    World.RunBandUpdates l gT gA w
      = w.setBands (fun i => if i ∈ l then w.newBand i gT gA else w.groundAtLatitudes i) := by
  have hbridge : World.RunBandUpdates l gT gA w
      = l.foldl (fun acc lat =>
          { acc with groundAtLatitudes :=
              Function.update acc.groundAtLatitudes lat (acc.newBand lat gT gA) }) w := rfl
  rw [hbridge]
  exact foldl_setBands (fun acc lat => acc.newBand lat gT gA)
    (fun w F lat h => newBand_congr w F lat gT gA h) l hl w

theorem applyDeltasInOrder_fields (we be ge : Bool) (dw db dg : ℚ) :
    ∀ (l : List Color), l.Nodup → ∀ gc : GroundCover,
      applyDeltasInOrder l we be ge dw db dg gc =
        { proportionWhite :=
            if Color.white ∈ l then
              (if we then GroundCover.snapLow (gc.proportionWhite + dw) else gc.proportionWhite)
            else gc.proportionWhite
          proportionBlack :=
            if Color.black ∈ l then
              (if be then GroundCover.snapLow (gc.proportionBlack + db) else gc.proportionBlack)
            else gc.proportionBlack
          proportionGray :=
            if Color.gray ∈ l then
              (if ge then GroundCover.snapLow (gc.proportionGray + dg) else gc.proportionGray)
            else gc.proportionGray } := by
  intro l
  induction l with
  | nil =>
    intro _ gc
    simp only [List.not_mem_nil, if_false]
    rfl
  | cons a t ih =>
    intro hnd gc
    rw [List.nodup_cons] at hnd
    have hfold : applyDeltasInOrder (a :: t) we be ge dw db dg gc
        = applyDeltasInOrder t we be ge dw db dg (applyColorDelta we be ge dw db dg gc a) := rfl
    rw [hfold, ih hnd.2]
    cases a with
    | white =>
      have hw : Color.white ∉ t := hnd.1
      cases we <;>
        simp [applyColorDelta, GroundCover.IncrementWhiteAmount, hw, List.mem_cons]
    | black =>
      have hb : Color.black ∉ t := hnd.1
      cases be <;>
        simp [applyColorDelta, GroundCover.IncrementBlackAmount, hb, List.mem_cons]
    | gray =>
      have hgr : Color.gray ∉ t := hnd.1
      cases ge <;>
        simp [applyColorDelta, GroundCover.IncrementGrayAmount, hgr, List.mem_cons]

theorem applyDeltasInOrder_perm (we be ge : Bool) (dw db dg : ℚ)
    (l : List Color) (hp : l.Perm [Color.white, Color.black, Color.gray])
    (gc : GroundCover) :
    applyDeltasInOrder l we be ge dw db dg gc = applyDeltasSim we be ge dw db dg gc := by
  have hnd : l.Nodup := hp.nodup_iff.mpr (by decide)
  have hm : ∀ c : Color, c ∈ l := fun c => hp.mem_iff.mpr (by cases c <;> simp)
  rw [applyDeltasInOrder_fields we be ge dw db dg l hnd gc]
  simp [applyDeltasSim, hm]

/-- The sequence of conditional per-color increments of the source, with
precomputed amounts, coincides with the simultaneous record update. -/
theorem seqInc_eq_sim (we be ge : Bool) (dw db dg : ℚ) (gc : GroundCover) :
    (let gc1 := if we then gc.IncrementWhiteAmount dw else gc
     let gc2 := if be then gc1.IncrementBlackAmount db else gc1
     if ge then gc2.IncrementGrayAmount dg else gc2)
      = applyDeltasSim we be ge dw db dg gc := by
  cases we <;> cases be <;> cases ge <;>
    simp [applyDeltasSim, GroundCover.IncrementWhiteAmount, GroundCover.IncrementBlackAmount,
      GroundCover.IncrementGrayAmount]

theorem newBand_eq_sim (w : World) (lat : Fin numberOfLatitudes) (gT gA : ℚ) :
    w.newBand lat gT gA
      = applyDeltasSim w.whiteDaisiesEnabled w.blackDaisiesEnabled w.grayDaisiesEnabled
          (w.WhiteGrowthRateAtLatitude lat gT gA * timePerUpdate)
          (w.BlackGrowthRateAtLatitude lat gT gA * timePerUpdate)
          (w.GrayGrowthRateAtLatitude lat gT gA * timePerUpdate)
          (w.groundAtLatitudes lat) :=
  seqInc_eq_sim w.whiteDaisiesEnabled w.blackDaisiesEnabled w.grayDaisiesEnabled _ _ _ _

theorem newBandWithOrder_eq (corder : List Color)
    (hp : corder.Perm [Color.white, Color.black, Color.gray])
    (w : World) (lat : Fin numberOfLatitudes) (gT gA : ℚ) :
    newBandWithOrder corder w lat gT gA = w.newBand lat gT gA := by
  rw [newBandWithOrder, applyDeltasInOrder_perm _ _ _ _ _ _ _ hp, newBand_eq_sim]

theorem newBandWithOrder_congr (corder : List Color) (w : World)
    (F : Fin numberOfLatitudes → GroundCover) (lat : Fin numberOfLatitudes) (gT gA : ℚ)
    (h : F lat = w.groundAtLatitudes lat) :
    newBandWithOrder corder (w.setBands F) lat gT gA = newBandWithOrder corder w lat gT gA := by
  simp only [newBandWithOrder, World.WhiteGrowthRateAtLatitude, World.BlackGrowthRateAtLatitude,
    World.GrayGrowthRateAtLatitude, World.GrowthRateOfColorAtLatitude, World.setBands,
    bandAt_coe]
  rw [h]

theorem flat_eq_sim (qpow4 : ℚ → ℚ) (w : World) :
    World.UpdateDaisyAmountsOnFlatPlanet qpow4 w
      = w.setGround
          (applyDeltasSim w.whiteDaisiesEnabled w.blackDaisiesEnabled w.grayDaisiesEnabled
            (World.WhiteGrowthRate qpow4 w * timePerUpdate)
            (World.BlackGrowthRate qpow4 w * timePerUpdate)
            (World.GrayGrowthRate qpow4 w * timePerUpdate)
            w.ground) :=
  congrArg (World.setGround w)
    (seqInc_eq_sim w.whiteDaisiesEnabled w.blackDaisiesEnabled w.grayDaisiesEnabled
      (World.WhiteGrowthRate qpow4 w * timePerUpdate)
      (World.BlackGrowthRate qpow4 w * timePerUpdate)
      (World.GrayGrowthRate qpow4 w * timePerUpdate)
      w.ground)

theorem Update_eq_sim (qpow4 : ℚ → ℚ) (w : World) (h : w.daisiesCanGrowAndDie = true) :
    World.Update qpow4 w = SimultaneousUpdate qpow4 w := by
  obtain ⟨g0, r0, s0, b0, w0, y0, d0, F0, u0⟩ := w
  change d0 = true at h
  subst h
  by_cases hr : r0 = true
  · subst hr
    simp only [World.Update, SimultaneousUpdate, if_true]
    rw [RunBandUpdates_closed _ _ _ (List.nodup_finRange _)]
    refine congrArg (World.setBands _) ?_
    funext i
    rw [if_pos (List.mem_finRange i), newBand_eq_sim]
    rfl
  · have hr2 : r0 = false := by
      cases r0
      · rfl
      · exact absurd rfl hr
    subst hr2
    simp only [World.Update, SimultaneousUpdate, if_true, Bool.false_eq_true, if_false]
    rw [flat_eq_sim]
    rfl

theorem UpdateWithBandOrder_eq_sim (qpow4 : ℚ → ℚ)
    (border : List (Fin numberOfLatitudes))
    (hp : border.Perm (List.finRange numberOfLatitudes))
    (w : World) (h : w.daisiesCanGrowAndDie = true) :
    UpdateWithBandOrder qpow4 border w = SimultaneousUpdate qpow4 w := by
  obtain ⟨g0, r0, s0, b0, w0, y0, d0, F0, u0⟩ := w
  change d0 = true at h
  subst h
  by_cases hr : r0 = true
  · subst hr
    simp only [UpdateWithBandOrder, SimultaneousUpdate, if_true]
    rw [RunBandUpdates_closed _ _ _ (hp.nodup_iff.mpr (List.nodup_finRange _))]
    refine congrArg (World.setBands _) ?_
    funext i
    rw [if_pos (hp.mem_iff.mpr (List.mem_finRange i)), newBand_eq_sim]
    rfl
  · have hr2 : r0 = false := by
      cases r0
      · rfl
      · exact absurd rfl hr
    subst hr2
    simp only [UpdateWithBandOrder, SimultaneousUpdate, if_true, Bool.false_eq_true, if_false]
    rw [flat_eq_sim]
    rfl

theorem UpdateWithColorOrder_eq_sim (qpow4 : ℚ → ℚ) (corder : List Color)
    (hp : corder.Perm [Color.white, Color.black, Color.gray])
    (w : World) (h : w.daisiesCanGrowAndDie = true) :
    UpdateWithColorOrder qpow4 corder w = SimultaneousUpdate qpow4 w := by
  obtain ⟨g0, r0, s0, b0, w0, y0, d0, F0, u0⟩ := w
  change d0 = true at h
  subst h
  by_cases hr : r0 = true
  · subst hr
    simp only [UpdateWithColorOrder, SimultaneousUpdate, if_true]
    rw [foldl_setBands _
      (fun v F lat hF => newBandWithOrder_congr corder v F lat _ _ hF)
      _ (List.nodup_finRange _)]
    refine congrArg (World.setBands _) ?_
    funext i
    rw [if_pos (List.mem_finRange i)]
    rw [newBandWithOrder_eq corder hp, newBand_eq_sim]
    rfl
  · have hr2 : r0 = false := by
      cases r0
      · rfl
      · exact absurd rfl hr
    subst hr2
    simp only [UpdateWithColorOrder, SimultaneousUpdate, if_true, Bool.false_eq_true, if_false]
    rw [applyDeltasInOrder_perm _ _ _ _ _ _ _ hp]
    rfl

/-! ## Claim theorems -/

/-- C1: for every model state with growth enabled, one call to `Update()`
applies exactly the deltas `GrowthRate × timePerUpdate` computed from the
pre-step state, so the result equals the simultaneous application of all
per-color (and, in round mode, per-band) deltas, and processing the bands
or the colors in any other order yields the same state. -/
theorem update_simultaneous_semantics (qpow4 : ℚ → ℚ) (w : World)
    (h : w.daisiesCanGrowAndDie = true) :
    World.Update qpow4 w = SimultaneousUpdate qpow4 w ∧
    (∀ border : List (Fin numberOfLatitudes),
      border.Perm (List.finRange numberOfLatitudes) →
      UpdateWithBandOrder qpow4 border w = SimultaneousUpdate qpow4 w) ∧
    (∀ corder : List Color, corder.Perm [Color.white, Color.black, Color.gray] →
      UpdateWithColorOrder qpow4 corder w = SimultaneousUpdate qpow4 w) :=
  ⟨Update_eq_sim qpow4 w h,
   fun border hp => UpdateWithBandOrder_eq_sim qpow4 border hp w h,
   fun corder hp => UpdateWithColorOrder_eq_sim qpow4 corder hp w h⟩

/-- A concrete round world with growth enabled, used as a witness input. -/
def wC1 : World :=
  { ground := ⟨1/2, 1/2, 0⟩
    roundWorld := true
    solarLuminosity := 1
    blackDaisiesEnabled := true
    whiteDaisiesEnabled := true
    grayDaisiesEnabled := false
    daisiesCanGrowAndDie := true
    groundAtLatitudes := fun _ => ⟨1/4, 1/4, 0⟩
    update := 0 }

/-- Witness for C1 at a concrete round world, including a reversed band
processing order. -/
theorem update_simultaneous_semantics_witness :
    World.Update (fun q => q) wC1 = SimultaneousUpdate (fun q => q) wC1 ∧
    UpdateWithBandOrder (fun q => q) (List.finRange numberOfLatitudes).reverse wC1
      = SimultaneousUpdate (fun q => q) wC1 :=
  ⟨(update_simultaneous_semantics (fun q => q) wC1 rfl).1,
   (update_simultaneous_semantics (fun q => q) wC1 rfl).2.1 _ (List.reverse_perm _)⟩

theorem Update_disabled (qpow4 : ℚ → ℚ) (w : World)
    (h : w.daisiesCanGrowAndDie = false) :
    World.Update qpow4 w = { w with update := w.update + 1 } := by
  obtain ⟨g0, r0, s0, b0, w0, y0, d0, F0, u0⟩ := w
  change d0 = false at h
  subst h
  simp only [World.Update, Bool.false_eq_true, if_false]

theorem Sim_update_counter (qpow4 : ℚ → ℚ) (w : World) :
    (SimultaneousUpdate qpow4 w).update = w.update + 1 := by
  unfold SimultaneousUpdate
  split
  · split
    · rfl
    · rfl
  · rfl

/-- C7: every `Update()` call increments the update counter by exactly 1,
and with growth disabled it changes nothing else: flat cover, every
latitude band, luminosity and the topology flag are untouched. -/
theorem update_counter_and_disabled_frame (qpow4 : ℚ → ℚ) (w : World) :
    (World.Update qpow4 w).update = w.update + 1 ∧
    (w.daisiesCanGrowAndDie = false →
      (World.Update qpow4 w).ground = w.ground ∧
      (∀ i : Fin numberOfLatitudes,
        (World.Update qpow4 w).groundAtLatitudes i = w.groundAtLatitudes i) ∧
      (World.Update qpow4 w).solarLuminosity = w.solarLuminosity ∧
      (World.Update qpow4 w).roundWorld = w.roundWorld) := by
  constructor
  · by_cases h : w.daisiesCanGrowAndDie = true
    · rw [Update_eq_sim qpow4 w h]
      exact Sim_update_counter qpow4 w
    · have h2 : w.daisiesCanGrowAndDie = false := by
        cases hb : w.daisiesCanGrowAndDie
        · rfl
        · exact absurd hb h
      rw [Update_disabled qpow4 w h2]
  · intro h2
    rw [Update_disabled qpow4 w h2]
    exact ⟨rfl, fun _ => rfl, rfl, rfl⟩

/-- A concrete flat world with growth disabled, used as a witness input. -/
def wC7 : World :=
  { ground := ⟨1/2, 1/3, 0⟩
    roundWorld := false
    solarLuminosity := 1
    blackDaisiesEnabled := true
    whiteDaisiesEnabled := true
    grayDaisiesEnabled := false
    daisiesCanGrowAndDie := false
    groundAtLatitudes := fun _ => defaultGroundCover
    update := 5 }

/-- Witness for C7 at a concrete growth-disabled world. -/
theorem update_counter_and_disabled_frame_witness :
    (World.Update (fun q => q) wC7).update = 6 ∧
    (World.Update (fun q => q) wC7).ground = wC7.ground :=
  ⟨(update_counter_and_disabled_frame (fun q => q) wC7).1,
   ((update_counter_and_disabled_frame (fun q => q) wC7).2 rfl).1⟩

/-- C6: after `IncrementColor(color, delta)` the stored proportion of that
color is exactly 0 or at least 0.001: a result below 0.001 is snapped to
exactly 0, and otherwise the increment is applied unchanged. -/
theorem incrementColor_extinction_floor (c : Color) (gc : GroundCover) (delta : ℚ) :
    ((gc.IncrementColor c delta).proportionOf c = 0 ∨
      1/1000 ≤ (gc.IncrementColor c delta).proportionOf c) ∧
    (gc.proportionOf c + delta < 1/1000 →
      (gc.IncrementColor c delta).proportionOf c = 0) ∧
    (¬ gc.proportionOf c + delta < 1/1000 →
      (gc.IncrementColor c delta).proportionOf c = gc.proportionOf c + delta) := by
  cases c <;>
    (simp only [GroundCover.IncrementColor, GroundCover.proportionOf,
       GroundCover.IncrementWhiteAmount, GroundCover.IncrementBlackAmount,
       GroundCover.IncrementGrayAmount, GroundCover.snapLow]
     refine ⟨?_, ?_, ?_⟩
     · split_ifs with hlt
       · exact Or.inl rfl
       · exact Or.inr (not_lt.mp hlt)
     · intro hlt
       rw [if_pos hlt]
     · intro hge
       rw [if_neg hge])

/-- Witness for C6: a negative increment driving the proportion below
0.001 snaps it to exactly 0. -/
theorem incrementColor_extinction_floor_witness :
    (GroundCover.IncrementColor Color.white ⟨1/2000, 0, 0⟩ (-(1/10000))).proportionOf
        Color.white = 0 :=
  (incrementColor_extinction_floor Color.white ⟨1/2000, 0, 0⟩ (-(1/10000))).2.1
    (by norm_num [GroundCover.proportionOf])

theorem bandAt_of_lt (w : World) {i : ℕ} (h : i < numberOfLatitudes) :
    w.bandAt i = w.groundAtLatitudes ⟨i, h⟩ :=
  dif_pos h

/-- On a world whose bands all hold the same cover, a per-band sum is a
constant sum. -/
theorem sum_bandAt_const (w : World) (gc : GroundCover)
    (hw : ∀ i : Fin numberOfLatitudes, w.groundAtLatitudes i = gc)
    (f : GroundCover → ℚ) :
    ∑ i in Finset.range numberOfLatitudes, f (w.bandAt i)
      = (numberOfLatitudes : ℚ) * f gc := by
  rw [Finset.sum_congr rfl (fun i hi => by
    rw [bandAt_of_lt w (Finset.mem_range.mp hi), hw])]
  rw [Finset.sum_const, Finset.card_range, nsmul_eq_mul]

/-- A flat world holding half white and half black, with default bands. -/
def wC3flat : World :=
  { ground := ⟨1/2, 1/2, 0⟩
    roundWorld := false
    solarLuminosity := 1
    blackDaisiesEnabled := true
    whiteDaisiesEnabled := true
    grayDaisiesEnabled := false
    daisiesCanGrowAndDie := true
    groundAtLatitudes := fun _ => defaultGroundCover
    update := 0 }

/-- The same state as `wC3flat` but in round topology. -/
def wC3round : World := { wC3flat with roundWorld := true }

/-- C3 counterexample: switching `wC3flat` to round topology does not copy
the flat proportions into the bands (band 0 keeps its 0.33 white cover
while the flat cover holds 0.5), and switching `wC3round` to flat changes
the planet-wide white proportion from 0.33 to 0.5, so the aggregate is
not conserved within 1e-5. -/
theorem setRoundWorld_no_copy_counterexample :
    ((wC3flat.SetRoundWorld true).groundAtLatitudes ⟨0, by norm_num [numberOfLatitudes]⟩).proportionWhite
        ≠ wC3flat.ground.proportionWhite ∧
    ¬ |World.GetProportionWhite (wC3round.SetRoundWorld false)
        - World.GetProportionWhite wC3round| ≤ 1/100000 := by
  constructor
  · show (33/100 : ℚ) ≠ 1/2
    norm_num
  · have h1 : World.GetProportionWhite (wC3round.SetRoundWorld false) = 1/2 := rfl
    have h2 : World.GetProportionWhite wC3round = 33/100 := by
      rw [World.GetProportionWhite,
        if_pos (show wC3round.roundWorld = true from rfl)]
      rw [sum_bandAt_const wC3round defaultGroundCover (fun _ => rfl)
        (fun gc => gc.proportionWhite / (numberOfLatitudes : ℚ))]
      norm_num [numberOfLatitudes, defaultGroundCover]
    rw [h1, h2, not_le]
    have habs : |(1:ℚ)/2 - 33/100| = 17/100 := by
      rw [show (1:ℚ)/2 - 33/100 = 17/100 by norm_num]
      exact abs_of_nonneg (by norm_num)
    rw [habs]
    norm_num

/-- C3 amended: `SetRoundWorld` only assigns the topology flag; the flat
cover and every latitude band are left untouched, so no copying (flat to
round) or averaging (round to flat) takes place. -/
theorem setRoundWorld_flag_only (w : World) (b : Bool) :
    (w.SetRoundWorld b).roundWorld = b ∧
    (w.SetRoundWorld b).ground = w.ground ∧
    (∀ i : Fin numberOfLatitudes,
      (w.SetRoundWorld b).groundAtLatitudes i = w.groundAtLatitudes i) :=
  ⟨rfl, rfl, fun _ => rfl⟩

/-- C4: on a round world with identical bands, switching to flat and back
to round leaves every aggregate color proportion within 1e-5 of its
original value (in fact the state is unchanged). -/
theorem roundtrip_aggregate_proportions (w : World)
    (hr : w.roundWorld = true)
    (_huni : ∀ i j : Fin numberOfLatitudes,
      w.groundAtLatitudes i = w.groundAtLatitudes j) :
    |World.GetProportionWhite ((w.SetRoundWorld false).SetRoundWorld true)
        - World.GetProportionWhite w| ≤ 1/100000 ∧
    |World.GetProportionBlack ((w.SetRoundWorld false).SetRoundWorld true)
        - World.GetProportionBlack w| ≤ 1/100000 ∧
    |World.GetProportionGray ((w.SetRoundWorld false).SetRoundWorld true)
        - World.GetProportionGray w| ≤ 1/100000 := by
  have hkey : (w.SetRoundWorld false).SetRoundWorld true = w := by
    obtain ⟨g0, r0, s0, b0, w0, y0, d0, F0, u0⟩ := w
    change r0 = true at hr
    subst hr
    rfl
  rw [hkey]
  refine ⟨?_, ?_, ?_⟩ <;> (rw [sub_self, abs_zero]; norm_num)

/-- Witness for C4 at a concrete uniform round world. -/
theorem roundtrip_aggregate_proportions_witness :
    |World.GetProportionWhite ((wC1.SetRoundWorld false).SetRoundWorld true)
        - World.GetProportionWhite wC1| ≤ 1/100000 :=
  (roundtrip_aggregate_proportions wC1 rfl (fun _ _ => rfl)).1

theorem sum_range_cast : ∑ i in Finset.range numberOfLatitudes, (i : ℚ) = 4005 := by
  rw [← Nat.cast_sum, Finset.sum_range_id]
  norm_num [numberOfLatitudes]

theorem sum_lumMult :
    ∑ i in Finset.range numberOfLatitudes,
      World.GetLuminosityMultiplierAtLatitude i = 189/2 := by
  simp only [World.GetLuminosityMultiplierAtLatitude]
  rw [Finset.sum_add_distrib, Finset.sum_const, Finset.card_range, ← Finset.mul_sum,
    sum_range_cast]
  norm_num [numberOfLatitudes, minLuminosityMultiplier, maxLuminosityMultiplier]

theorem defaultBand_albedo (i : Fin numberOfLatitudes) :
    (wC3round.groundAtLatitudes i).GetTotalAlbedo = 1/2 := by
  norm_num [wC3round, wC3flat, defaultGroundCover, GroundCover.GetTotalAlbedo,
    GroundCover.GetProportionGround, whiteAlbedo, blackAlbedo, grayAlbedo, groundAlbedo]

/-- C2 counterexample: on the round world whose bands all hold the default
cover (per-band albedo exactly 0.5), the code computes a global albedo of
0.475, while the insolation-weighted mean of the per-band albedos claimed
by the spec is 0.525; the two differ by the non-normalized weight mass. -/
theorem roundAlbedo_not_weightedMean_counterexample :
    World.GetTotalAlbedo wC3round ≠ specAlbedoWeightedMean wC3round := by
  have hcode : World.GetTotalAlbedo wC3round = 19/40 := by
    rw [World.GetTotalAlbedo, if_pos (show wC3round.roundWorld = true from rfl),
      World.GetAverageAlbedoOnRoundPlanet]
    have ha : ∀ i ∈ Finset.range numberOfLatitudes,
        World.GetLuminosityMultiplierAtLatitude i
            * (1 - (wC3round.bandAt i).GetTotalAlbedo) / (numberOfLatitudes : ℚ)
          = World.GetLuminosityMultiplierAtLatitude i * (1/180) := by
      intro i hi
      rw [bandAt_of_lt wC3round (Finset.mem_range.mp hi), defaultBand_albedo]
      norm_num [numberOfLatitudes]
      ring
    rw [Finset.sum_congr rfl ha, ← Finset.sum_mul, sum_lumMult]
    norm_num
  have hspec : specAlbedoWeightedMean wC3round = 21/40 := by
    rw [specAlbedoWeightedMean]
    have ha : ∀ i ∈ Finset.range numberOfLatitudes,
        World.GetLuminosityMultiplierAtLatitude i / (numberOfLatitudes : ℚ)
            * (wC3round.bandAt i).GetTotalAlbedo
          = World.GetLuminosityMultiplierAtLatitude i * (1/180) := by
      intro i hi
      rw [bandAt_of_lt wC3round (Finset.mem_range.mp hi), defaultBand_albedo]
      norm_num [numberOfLatitudes]
      ring
    rw [Finset.sum_congr rfl ha, ← Finset.sum_mul, sum_lumMult]
    norm_num
  rw [hcode, hspec]
  norm_num

/-- C2 amended: in round topology, `GlobalAlbedo()` equals one minus the
insolation-weighted mean of the per-band absorptions; since the weights
`InsolationMultiplier(i)/N` sum to 1.05 rather than 1, this equals the
spec's insolation-weighted mean of per-band albedos minus exactly 1/20. -/
theorem roundAlbedo_weightedMean_offset (w : World) (hr : w.roundWorld = true) :
    World.GetTotalAlbedo w = specAlbedoWeightedMean w - 1/20 := by
  rw [World.GetTotalAlbedo, if_pos hr, World.GetAverageAlbedoOnRoundPlanet,
    specAlbedoWeightedMean]
  have hterm : ∀ i ∈ Finset.range numberOfLatitudes,
      World.GetLuminosityMultiplierAtLatitude i
          * (1 - (w.bandAt i).GetTotalAlbedo) / (numberOfLatitudes : ℚ)
        = World.GetLuminosityMultiplierAtLatitude i / (numberOfLatitudes : ℚ)
          - World.GetLuminosityMultiplierAtLatitude i / (numberOfLatitudes : ℚ)
            * (w.bandAt i).GetTotalAlbedo := by
    intro i _
    have hN : ((numberOfLatitudes : ℚ)) ≠ 0 := by norm_num [numberOfLatitudes]
    field_simp
    ring
  rw [Finset.sum_congr rfl hterm, Finset.sum_sub_distrib, ← Finset.sum_div, sum_lumMult]
  have h2190 : (189/2 : ℚ) / (numberOfLatitudes : ℚ) = 21/20 := by
    norm_num [numberOfLatitudes]
  rw [h2190]
  ring

/-- Witness for the amended C2 at a concrete round world. -/
theorem roundAlbedo_weightedMean_offset_witness :
    wC3round.roundWorld = true ∧
    World.GetTotalAlbedo wC3round = specAlbedoWeightedMean wC3round - 1/20 :=
  ⟨rfl, roundAlbedo_weightedMean_offset wC3round rfl⟩

/-- The flat branch of `BoostDaisiesIfExtinct` updates the three fields of
the flat cover independently: each enabled color below its threshold is
set to exactly the threshold. -/
theorem boost_flat_ground (wB bB gB : ℚ) (w : World) (hr : w.roundWorld = false) :
    (World.BoostDaisiesIfExtinct wB bB gB w).ground =
      { proportionWhite :=
          if w.whiteDaisiesEnabled = true ∧ w.ground.proportionWhite < wB then wB
          else w.ground.proportionWhite
        proportionBlack :=
          if w.blackDaisiesEnabled = true ∧ w.ground.proportionBlack < bB then bB
          else w.ground.proportionBlack
        proportionGray :=
          if w.grayDaisiesEnabled = true ∧ w.ground.proportionGray < gB then gB
          else w.ground.proportionGray } := by
  obtain ⟨g0, r0, s0, b0, w0, y0, d0, F0, u0⟩ := w
  change r0 = false at hr
  subst hr
  obtain ⟨gw, gb, gg⟩ := g0
  simp only [World.BoostDaisiesIfExtinct, World.GetProportionWhite, World.GetProportionBlack,
    World.GetProportionGray, Bool.false_eq_true, if_false,
    apply_ite World.roundWorld, apply_ite World.blackDaisiesEnabled,
    apply_ite World.grayDaisiesEnabled, apply_ite World.ground,
    apply_ite GroundCover.proportionWhite, apply_ite GroundCover.proportionBlack,
    apply_ite GroundCover.proportionGray, ite_self]
  split_ifs <;> rfl

/-- C8: in flat mode, `BoostIfExtinct` with threshold 0.01 raises an
enabled color sitting at proportion 0 to exactly 0.01, and leaves every
color at or above its threshold, and every disabled color, unchanged. -/
theorem boostIfExtinct_flat_thresholds (w : World) (hr : w.roundWorld = false) :
    (w.whiteDaisiesEnabled = true → w.ground.proportionWhite = 0 →
      (World.BoostDaisiesIfExtinct (1/100) (1/100) (1/100) w).ground.proportionWhite
        = 1/100) ∧
    (1/100 ≤ w.ground.proportionWhite →
      (World.BoostDaisiesIfExtinct (1/100) (1/100) (1/100) w).ground.proportionWhite
        = w.ground.proportionWhite) ∧
    (w.whiteDaisiesEnabled = false →
      (World.BoostDaisiesIfExtinct (1/100) (1/100) (1/100) w).ground.proportionWhite
        = w.ground.proportionWhite) ∧
    (w.blackDaisiesEnabled = true → w.ground.proportionBlack = 0 →
      (World.BoostDaisiesIfExtinct (1/100) (1/100) (1/100) w).ground.proportionBlack
        = 1/100) ∧
    (1/100 ≤ w.ground.proportionBlack →
      (World.BoostDaisiesIfExtinct (1/100) (1/100) (1/100) w).ground.proportionBlack
        = w.ground.proportionBlack) ∧
    (w.blackDaisiesEnabled = false →
      (World.BoostDaisiesIfExtinct (1/100) (1/100) (1/100) w).ground.proportionBlack
        = w.ground.proportionBlack) ∧
    (w.grayDaisiesEnabled = true → w.ground.proportionGray = 0 →
      (World.BoostDaisiesIfExtinct (1/100) (1/100) (1/100) w).ground.proportionGray
        = 1/100) ∧
    (1/100 ≤ w.ground.proportionGray →
      (World.BoostDaisiesIfExtinct (1/100) (1/100) (1/100) w).ground.proportionGray
        = w.ground.proportionGray) ∧
    (w.grayDaisiesEnabled = false →
      (World.BoostDaisiesIfExtinct (1/100) (1/100) (1/100) w).ground.proportionGray
        = w.ground.proportionGray) := by
  rw [boost_flat_ground (1/100) (1/100) (1/100) w hr]
  refine ⟨?_, ?_, ?_, ?_, ?_, ?_, ?_, ?_, ?_⟩
  · intro hw hp
    show (if w.whiteDaisiesEnabled = true ∧ w.ground.proportionWhite < 1/100 then (1:ℚ)/100
          else w.ground.proportionWhite) = 1/100
    rw [if_pos ⟨hw, by rw [hp]; norm_num⟩]
  · intro hge
    show (if w.whiteDaisiesEnabled = true ∧ w.ground.proportionWhite < 1/100 then (1:ℚ)/100
          else w.ground.proportionWhite) = w.ground.proportionWhite
    rw [if_neg]
    rintro ⟨-, hlt⟩
    exact absurd hge (not_le.mpr hlt)
  · intro hw
    show (if w.whiteDaisiesEnabled = true ∧ w.ground.proportionWhite < 1/100 then (1:ℚ)/100
          else w.ground.proportionWhite) = w.ground.proportionWhite
    rw [if_neg]
    rintro ⟨hw2, -⟩
    rw [hw] at hw2
    exact Bool.false_ne_true hw2
  · intro hb hp
    show (if w.blackDaisiesEnabled = true ∧ w.ground.proportionBlack < 1/100 then (1:ℚ)/100
          else w.ground.proportionBlack) = 1/100
    rw [if_pos ⟨hb, by rw [hp]; norm_num⟩]
  · intro hge
    show (if w.blackDaisiesEnabled = true ∧ w.ground.proportionBlack < 1/100 then (1:ℚ)/100
          else w.ground.proportionBlack) = w.ground.proportionBlack
    rw [if_neg]
    rintro ⟨-, hlt⟩
    exact absurd hge (not_le.mpr hlt)
  · intro hb
    show (if w.blackDaisiesEnabled = true ∧ w.ground.proportionBlack < 1/100 then (1:ℚ)/100
          else w.ground.proportionBlack) = w.ground.proportionBlack
    rw [if_neg]
    rintro ⟨hb2, -⟩
    rw [hb] at hb2
    exact Bool.false_ne_true hb2
  · intro hg hp
    show (if w.grayDaisiesEnabled = true ∧ w.ground.proportionGray < 1/100 then (1:ℚ)/100
          else w.ground.proportionGray) = 1/100
    rw [if_pos ⟨hg, by rw [hp]; norm_num⟩]
  · intro hge
    show (if w.grayDaisiesEnabled = true ∧ w.ground.proportionGray < 1/100 then (1:ℚ)/100
          else w.ground.proportionGray) = w.ground.proportionGray
    rw [if_neg]
    rintro ⟨-, hlt⟩
    exact absurd hge (not_le.mpr hlt)
  · intro hg
    show (if w.grayDaisiesEnabled = true ∧ w.ground.proportionGray < 1/100 then (1:ℚ)/100
          else w.ground.proportionGray) = w.ground.proportionGray
    rw [if_neg]
    rintro ⟨hg2, -⟩
    rw [hg] at hg2
    exact Bool.false_ne_true hg2

/-- A concrete flat world: white extinct, black healthy, gray disabled. -/
def wC8 : World :=
  { ground := ⟨0, 1/2, 1/4⟩
    roundWorld := false
    solarLuminosity := 1
    blackDaisiesEnabled := true
    whiteDaisiesEnabled := true
    grayDaisiesEnabled := false
    daisiesCanGrowAndDie := true
    groundAtLatitudes := fun _ => defaultGroundCover
    update := 0 }

/-- Witness for C8: boosting `wC8` raises white from 0 to exactly 0.01
and leaves black (above threshold) and gray (disabled) unchanged. -/
theorem boostIfExtinct_flat_thresholds_witness :
    (World.BoostDaisiesIfExtinct (1/100) (1/100) (1/100) wC8).ground.proportionWhite
      = 1/100 ∧
    (World.BoostDaisiesIfExtinct (1/100) (1/100) (1/100) wC8).ground.proportionBlack
      = wC8.ground.proportionBlack ∧
    (World.BoostDaisiesIfExtinct (1/100) (1/100) (1/100) wC8).ground.proportionGray
      = wC8.ground.proportionGray :=
  ⟨(boostIfExtinct_flat_thresholds wC8 rfl).1 rfl rfl,
   (boostIfExtinct_flat_thresholds wC8 rfl).2.2.2.2.1 (by norm_num [wC8]),
   (boostIfExtinct_flat_thresholds wC8 rfl).2.2.2.2.2.2.2.2 rfl⟩

/-- A round world whose bands are all half covered by white daisies. -/
def wC5 : World :=
  { ground := ⟨1/2, 1/2, 0⟩
    roundWorld := true
    solarLuminosity := 1
    blackDaisiesEnabled := true
    whiteDaisiesEnabled := true
    grayDaisiesEnabled := false
    daisiesCanGrowAndDie := true
    groundAtLatitudes := fun _ => ⟨1/2, 0, 0⟩
    update := 0 }

/-- C5 (code bug): the display-band accessors accumulate into an `int`,
so every partial sum is truncated toward zero and the reported proportion
is 0, not the unweighted per-band mean (here 0.5) the spec describes. -/
theorem displayBand_int_truncation_bug :
    World.GetProportionWhiteAtLatitude wC5 0 = 0 ∧
    specDisplayBandMeanWhite wC5 0 = 1/2 ∧
    World.GetProportionWhiteAtLatitude wC5 0 ≠ specDisplayBandMeanWhite wC5 0 ∧
    World.GetProportionGroundAtLatitude wC5 0 = 0 ∧
    specDisplayBandMeanGround wC5 0 = 1/2 := by
  have hlist : List.range' (numberOfLatitudes - World.displayBandWidth * 0
      - World.displayBandWidth) World.displayBandWidth
      = [81, 82, 83, 84, 85, 86, 87, 88, 89] := rfl
  have hsumW : ∑ i in Finset.Ico (81:ℕ) 90, (wC5.bandAt i).proportionWhite
      = ∑ _i in Finset.Ico (81:ℕ) 90, (1/2 : ℚ) :=
    Finset.sum_congr rfl (fun i hi => by
      rw [bandAt_of_lt wC5 (Finset.mem_Ico.mp hi).2]
      rfl)
  have hsumG : ∑ i in Finset.Ico (81:ℕ) 90, (wC5.bandAt i).GetProportionGround
      = ∑ _i in Finset.Ico (81:ℕ) 90, (1/2 : ℚ) :=
    Finset.sum_congr rfl (fun i hi => by
      rw [bandAt_of_lt wC5 (Finset.mem_Ico.mp hi).2]
      norm_num [wC5, GroundCover.GetProportionGround])
  have hcodeW : World.GetProportionWhiteAtLatitude wC5 0 = 0 := by
    rw [World.GetProportionWhiteAtLatitude, hlist]
    simp only [List.foldl_cons, List.foldl_nil, World.bandAt, wC5, numberOfLatitudes]
    norm_num [World.truncToInt, World.displayBandWidth, numberOfLatitudes,
      numberOfDisplayedLatitudes]
  have hcodeG : World.GetProportionGroundAtLatitude wC5 0 = 0 := by
    rw [World.GetProportionGroundAtLatitude, hlist]
    simp only [List.foldl_cons, List.foldl_nil, World.bandAt, wC5, numberOfLatitudes]
    norm_num [World.truncToInt, World.displayBandWidth, numberOfLatitudes,
      numberOfDisplayedLatitudes, GroundCover.GetProportionGround]
  have hspecW : specDisplayBandMeanWhite wC5 0 = 1/2 := by
    show (∑ i in Finset.Ico (81:ℕ) 90, (wC5.bandAt i).proportionWhite)
        / ((9:ℕ):ℚ) = 1/2
    rw [hsumW, Finset.sum_const, Nat.card_Ico, nsmul_eq_mul]
    norm_num
  have hspecG : specDisplayBandMeanGround wC5 0 = 1/2 := by
    show (∑ i in Finset.Ico (81:ℕ) 90, (wC5.bandAt i).GetProportionGround)
        / ((9:ℕ):ℚ) = 1/2
    rw [hsumG, Finset.sum_const, Nat.card_Ico, nsmul_eq_mul]
    norm_num
  refine ⟨hcodeW, hspecW, ?_, hcodeG, hspecG⟩
  rw [hcodeW, hspecW]
  norm_num

theorem avgLat_collapse (A S : ℚ) :
    A / (S / (numberOfLatitudes : ℚ)) / (numberOfLatitudes : ℚ) = A / S := by
  rw [div_div,
    div_mul_cancel₀ S (by norm_num [numberOfLatitudes] : ((numberOfLatitudes : ℚ)) ≠ 0)]

/-- C9: when a color's aggregate proportion is below 0.0001, the
average-latitude statistic is the sentinel (`none`), distinguishable from
every valid latitude value; otherwise it is the proportion-weighted
centroid over the internal band indices. -/
theorem averageLatitude_sentinel_and_centroid (c : Color) (w : World)
    (hr : w.roundWorld = true) :
    (World.GetProportionOfColor c w < 1/10000 →
      World.GetAverageLatitudeOfColor c w = none ∧
      ∀ q : ℚ, World.GetAverageLatitudeOfColor c w ≠ some q) ∧
    (¬ World.GetProportionOfColor c w < 1/10000 →
      World.GetAverageLatitudeOfColor c w
        = some ((∑ i in Finset.range numberOfLatitudes,
              (i : ℚ) * GroundCover.proportionOf c (w.bandAt i))
            / ∑ i in Finset.range numberOfLatitudes,
              GroundCover.proportionOf c (w.bandAt i))) := by
  cases c
  case white =>
    constructor
    · intro hlt
      simp only [World.GetProportionOfColor] at hlt
      have hnone : World.GetAverageLatitudeOfWhite w = none := by
        rw [World.GetAverageLatitudeOfWhite, if_pos hlt]
      exact ⟨hnone, fun q => by rw [show World.GetAverageLatitudeOfColor Color.white w
        = World.GetAverageLatitudeOfWhite w from rfl, hnone]; simp⟩
    · intro hge
      simp only [World.GetProportionOfColor] at hge
      show World.GetAverageLatitudeOfWhite w = _
      rw [World.GetAverageLatitudeOfWhite, if_neg hge]
      refine congrArg some ?_
      rw [World.GetProportionWhite, if_pos hr, ← Finset.sum_div, avgLat_collapse]
      simp only [GroundCover.proportionOf]
  case black =>
    constructor
    · intro hlt
      simp only [World.GetProportionOfColor] at hlt
      have hnone : World.GetAverageLatitudeOfBlack w = none := by
        rw [World.GetAverageLatitudeOfBlack, if_pos hlt]
      exact ⟨hnone, fun q => by rw [show World.GetAverageLatitudeOfColor Color.black w
        = World.GetAverageLatitudeOfBlack w from rfl, hnone]; simp⟩
    · intro hge
      simp only [World.GetProportionOfColor] at hge
      show World.GetAverageLatitudeOfBlack w = _
      rw [World.GetAverageLatitudeOfBlack, if_neg hge]
      refine congrArg some ?_
      rw [World.GetProportionBlack, if_pos hr, ← Finset.sum_div, avgLat_collapse]
      simp only [GroundCover.proportionOf]
  case gray =>
    constructor
    · intro hlt
      simp only [World.GetProportionOfColor] at hlt
      have hnone : World.GetAverageLatitudeOfGray w = none := by
        rw [World.GetAverageLatitudeOfGray, if_pos hlt]
      exact ⟨hnone, fun q => by rw [show World.GetAverageLatitudeOfColor Color.gray w
        = World.GetAverageLatitudeOfGray w from rfl, hnone]; simp⟩
    · intro hge
      simp only [World.GetProportionOfColor] at hge
      show World.GetAverageLatitudeOfGray w = _
      rw [World.GetAverageLatitudeOfGray, if_neg hge]
      refine congrArg some ?_
      rw [World.GetProportionGray, if_pos hr, ← Finset.sum_div, avgLat_collapse]
      simp only [GroundCover.proportionOf]

/-- Witness for C9 at `wC5`: black is absent so the statistic is the
sentinel, while white sits at 0.5 in every band so the centroid is the
middle band index 44.5. -/
theorem averageLatitude_sentinel_and_centroid_witness :
    World.GetAverageLatitudeOfColor Color.black wC5 = none ∧
    World.GetAverageLatitudeOfColor Color.white wC5 = some (89/2) := by
  have hb0 : World.GetProportionBlack wC5 = 0 := by
    rw [World.GetProportionBlack, if_pos (show wC5.roundWorld = true from rfl),
      sum_bandAt_const wC5 ⟨1/2, 0, 0⟩ (fun _ => rfl)
        (fun gc => gc.proportionBlack / (numberOfLatitudes : ℚ))]
    norm_num
  have hw12 : World.GetProportionWhite wC5 = 1/2 := by
    rw [World.GetProportionWhite, if_pos (show wC5.roundWorld = true from rfl),
      sum_bandAt_const wC5 ⟨1/2, 0, 0⟩ (fun _ => rfl)
        (fun gc => gc.proportionWhite / (numberOfLatitudes : ℚ))]
    norm_num [numberOfLatitudes]
  constructor
  · exact ((averageLatitude_sentinel_and_centroid Color.black wC5 rfl).1
      (by rw [show World.GetProportionOfColor Color.black wC5
          = World.GetProportionBlack wC5 from rfl, hb0]; norm_num)).1
  · have h := (averageLatitude_sentinel_and_centroid Color.white wC5 rfl).2
      (by rw [show World.GetProportionOfColor Color.white wC5
          = World.GetProportionWhite wC5 from rfl, hw12]; norm_num)
    rw [h]
    refine congrArg some ?_
    have hA : ∑ i in Finset.range numberOfLatitudes,
        (i : ℚ) * GroundCover.proportionOf Color.white (wC5.bandAt i)
        = ∑ i in Finset.range numberOfLatitudes, (i : ℚ) * (1/2) := by
      refine Finset.sum_congr rfl (fun i hi => ?_)
      rw [bandAt_of_lt wC5 (Finset.mem_range.mp hi)]
      rfl
    have hS : ∑ i in Finset.range numberOfLatitudes,
        GroundCover.proportionOf Color.white (wC5.bandAt i)
        = (numberOfLatitudes : ℚ) * (1/2) :=
      sum_bandAt_const wC5 ⟨1/2, 0, 0⟩ (fun _ => rfl)
        (fun gc => GroundCover.proportionOf Color.white gc)
    rw [hA, hS, ← Finset.sum_mul, sum_range_cast]
    norm_num [numberOfLatitudes]

/-- C10: every query operation returns the state unchanged, and running
the same query twice in a row yields the same value: the accessors hold
no cache or hidden mutable state. -/
theorem queries_pure_and_repeatable (qpow4 : ℚ → ℚ) (c : Color)
    (localAlbedo : ℚ) (latitude : ℕ) (w : World) :
    (runGetTotalAlbedo w).2 = w ∧
    (runGetTotalAlbedo ((runGetTotalAlbedo w).2)).1 = (runGetTotalAlbedo w).1 ∧
    (runGetGlobalTemperature qpow4 w).2 = w ∧
    (runGetGlobalTemperature qpow4 ((runGetGlobalTemperature qpow4 w).2)).1
      = (runGetGlobalTemperature qpow4 w).1 ∧
    (runGetTemperatureOfAlbedo qpow4 localAlbedo w).2 = w ∧
    (runGetTemperatureOfAlbedo qpow4 localAlbedo
        ((runGetTemperatureOfAlbedo qpow4 localAlbedo w).2)).1
      = (runGetTemperatureOfAlbedo qpow4 localAlbedo w).1 ∧
    (runGetProportionOfColor c w).2 = w ∧
    (runGetProportionOfColor c ((runGetProportionOfColor c w).2)).1
      = (runGetProportionOfColor c w).1 ∧
    (runGetProportionGround w).2 = w ∧
    (runGetProportionGround ((runGetProportionGround w).2)).1
      = (runGetProportionGround w).1 ∧
    (runGetProportionWhiteAtLatitude latitude w).2 = w ∧
    (runGetProportionWhiteAtLatitude latitude
        ((runGetProportionWhiteAtLatitude latitude w).2)).1
      = (runGetProportionWhiteAtLatitude latitude w).1 ∧
    (runGetMinLatitudeOfWhite w).2 = w ∧
    (runGetMinLatitudeOfWhite ((runGetMinLatitudeOfWhite w).2)).1
      = (runGetMinLatitudeOfWhite w).1 ∧
    (runGetAverageLatitudeOfWhite w).2 = w ∧
    (runGetAverageLatitudeOfWhite ((runGetAverageLatitudeOfWhite w).2)).1
      = (runGetAverageLatitudeOfWhite w).1 ∧
    (runGetMaxLatitudeOfWhite w).2 = w ∧
    (runGetMaxLatitudeOfWhite ((runGetMaxLatitudeOfWhite w).2)).1
      = (runGetMaxLatitudeOfWhite w).1 ∧
    (runGetSolarLuminosity w).2 = w ∧
    (runGetSolarLuminosity ((runGetSolarLuminosity w).2)).1
      = (runGetSolarLuminosity w).1 ∧
    (runGetUpdatesPerTimeUnit w).2 = w ∧
    (runGetUpdatesPerTimeUnit ((runGetUpdatesPerTimeUnit w).2)).1
      = (runGetUpdatesPerTimeUnit w).1 :=
  ⟨rfl, rfl, rfl, rfl, rfl, rfl, rfl, rfl, rfl, rfl, rfl,
   rfl, rfl, rfl, rfl, rfl, rfl, rfl, rfl, rfl, rfl, rfl⟩

end Daisyworld
